import Mathlib

/-!
Verification development for the capstone legal-case citation web
application.  The repository ships four source files: the registration
form logic (capapi/forms.py), a timeline data migration
(labs/migrations/0007_timeline_ids_categories.py), and the test suites
for the cite and labs views.  The cite and labs view functions
themselves are not part of the shipped sources, so their behaviour is
modelled from the specification (daily case-access quota enforcement,
citation-matching redirect resolution, timeline JSON validation and
CRUD authorization), with the concrete parameters pinned by the shipped
test suites.  The form logic and the migration are embedded directly
from their source files.
-/

namespace Capstone

/-! ## Case access quota model (cite views)

Modelled from the spec: the cite view functions (serve_case and the
session allowance bookkeeping in cite/views.py) are not under the
shipped sources; the spec describes a daily case-access quota/allowance
mechanism enforced when rendering PDF/HTML case pages, with whitelisted
cases always served, a per-session allowance decremented per restricted
case, a 24-hour reset window, denial when the allowance is exhausted
(HTML: page without case text, PDF: redirect), and a Google-bot bypass
of the denial whose responses are not cached. -/

/-- Response format requested for a case page. -/
inductive RType where
  | html
  | pdf
deriving DecidableEq, Repr

/-- Anonymous session state relevant to the quota mechanism:
the remaining allowance and the unix time it was last updated. -/
structure Session where
  case_allowance_remaining : Nat
  case_allowance_last_updated : Nat
deriving DecidableEq, Repr

/-- Server configuration: the daily allowance setting
(settings.API_CASE_DAILY_ALLOWANCE). -/
structure Config where
  api_case_daily_allowance : Nat
deriving DecidableEq, Repr

/-- A request for a single case page. -/
structure CaseRequest where
  rtype : RType
  whitelisted : Bool
  google_bot : Bool
  now : Nat
deriving DecidableEq, Repr

/-- Response of the case view: HTTP status, whether the body contains
the case text, and whether the response is cacheable. -/
structure CaseResponse where
  status : Nat
  has_case_text : Bool
  cached : Bool
deriving DecidableEq, Repr

/-- Number of seconds in the daily quota window. -/
def quotaWindow : Nat := 60 * 60 * 24

/-- Modelled from the spec: session allowance refresh.  If the
allowance was last updated more than 24 hours ago the allowance is
reset to the configured daily allowance and the timestamp refreshed;
otherwise the session is unchanged. -/
def refreshSession (cfg : Config) (now : Nat) (s : Session) : Session :=
  if s.case_allowance_last_updated + quotaWindow < now then
    { case_allowance_remaining := cfg.api_case_daily_allowance,
      case_allowance_last_updated := now }
  else s

/-- Modelled from the spec: the single-case view with quota
enforcement.  Whitelisted cases are served unconditionally and are
cacheable; restricted cases are served while the (refreshed) allowance
is positive, decrementing it; with the allowance exhausted, a Google
bot is still served (uncached), an HTML request gets a 200 page without
the case text, and a PDF request gets a 302 redirect, all leaving the
session unchanged. -/
def serve_case (cfg : Config) (req : CaseRequest) (s : Session) :
    CaseResponse × Session :=
  if req.whitelisted then
    (⟨200, true, true⟩, s)
  else
    let s1 := refreshSession cfg req.now s
    if 0 < s1.case_allowance_remaining then
      (⟨200, true, false⟩,
        { s1 with case_allowance_remaining := s1.case_allowance_remaining - 1 })
    else if req.google_bot then
      (⟨200, true, false⟩, s1)
    else
      match req.rtype with
      | RType.html => (⟨200, false, false⟩, s1)
      | RType.pdf => (⟨302, false, false⟩, s1)

/-! ## Citation matching and redirect resolution (cite series/volume views)

Modelled from the spec: the series and volume view functions of
cite/views.py are not under the shipped sources; the spec describes
citation-matching/redirect resolution logic in the case-browsing views:
a series path component that parses as a full case citation redirects
to the case page, one that parses as a statutory citation redirects to
the citation search page, a known but unslugified series or volume
component redirects to its slugified URL, and an unknown component is
a 404. -/

/-- Characters kept by slugification, applied after lowercasing:
lowercase letters and digits pass through, separators become hyphens,
everything else is dropped. -/
def keepChar (c : Char) : Option Char :=
  if c.isLower || c.isDigit then some c
  else if c == ' ' || c == '-' || c == '_' then some '-'
  else none

/-- Slugify a path component: lowercase it, keep alphanumerics, turn
separators into hyphens and drop the rest. -/
def slugify (s : String) : String :=
  String.mk ((s.data.map Char.toLower).filterMap keepChar)

/-- Whether the string contains the character. -/
def hasChar (s : String) (c : Char) : Bool :=
  s.data.any (fun x => x == c)

/-- Split a character list at spaces, keeping empty tokens, as
splitting on a single-space separator does. -/
def splitSpacesAux : List Char → List Char → List String
  | [], acc => [String.mk acc.reverse]
  | ch :: rest, acc =>
    if ch = ' ' then String.mk acc.reverse :: splitSpacesAux rest []
    else splitSpacesAux rest (ch :: acc)

/-- Split a string into its space-separated tokens. -/
def splitWords (s : String) : List String :=
  splitSpacesAux s.data []

/-- Whether the string is a nonempty run of digits. -/
def isNum (s : String) : Bool :=
  !s.data.isEmpty && s.data.all Char.isDigit

/-- A recognized citation in a series path component. -/
inductive Cite where
  | caseCite (series volume page : String)
  | statuteCite
deriving DecidableEq, Repr

/-- Modelled from the spec: citation matching over a series path
component.  A component containing a section sign is a statutory
citation; otherwise a component of at least three space-separated
tokens whose first and last tokens are numbers is a full case citation
whose middle tokens name the reporter series. -/
def parse_cite (s : String) : Option Cite :=
  if hasChar s '§' then some Cite.statuteCite
  else if hasChar s ' ' then
    match splitWords s with
    | a :: b :: c :: t =>
      let page := (b :: c :: t).getLast!
      let middle := (b :: c :: t).dropLast
      if isNum a && isNum page then
        some (Cite.caseCite (slugify (" ".intercalate middle)) a page)
      else none
    | _ => none
  else none

/-- Response of a series or volume view. -/
inductive ViewResponse where
  | ok
  | redirect (url : String)
  | notFound
deriving DecidableEq, Repr

/-- Frontend URL of a case page. -/
def case_url (series volume page : String) : String :=
  "/" ++ series ++ "/" ++ volume ++ "/" ++ page ++ "/"

/-- URL of the citation search page for a query string. -/
def citations_url (q : String) : String :=
  "/citations/?q=" ++ q

/-- URL of a series page. -/
def series_url (slug : String) : String :=
  "/" ++ slug ++ "/"

/-- URL of a volume page. -/
def volume_url (slug volumeSlug : String) : String :=
  "/" ++ slug ++ "/" ++ volumeSlug ++ "/"

/-- Modelled from the spec: the series view.  The path component is
first matched as a citation (case citations redirect to the case page,
statutory citations to the citation search page); otherwise a known
slug renders the page, a component whose slugified form is known
redirects to the slugified URL, and anything else is a 404. -/
def series_view (slugs : List String) (series : String) : ViewResponse :=
  match parse_cite series with
  | some (Cite.caseCite ser vol page) => ViewResponse.redirect (case_url ser vol page)
  | some Cite.statuteCite => ViewResponse.redirect (citations_url series)
  | none =>
    if series ∈ slugs then ViewResponse.ok
    else if slugify series ∈ slugs then
      ViewResponse.redirect (series_url (slugify series))
    else ViewResponse.notFound

/-- Modelled from the spec: the volume view.  A known series/volume
slug pair renders the page, a pair whose slugified form is known
redirects to the slugified URL, and anything else is a 404. -/
def volume_view (volumes : List (String × String)) (series volume : String) :
    ViewResponse :=
  if (series, volume) ∈ volumes then ViewResponse.ok
  else if (slugify series, slugify volume) ∈ volumes then
    ViewResponse.redirect (volume_url (slugify series) (slugify volume))
  else ViewResponse.notFound

/-- Characters produced by keepChar are never spaces or section
signs. -/
theorem keepChar_safe (c c' : Char) (h : keepChar c = some c') :
    c' ≠ ' ' ∧ c' ≠ '§' := by
  unfold keepChar at h
  split at h
  · rename_i hc
    cases h
    constructor
    · intro he; rw [he] at hc; exact absurd hc (by decide)
    · intro he; rw [he] at hc; exact absurd hc (by decide)
  · split at h
    · cases h
      exact ⟨by decide, by decide⟩
    · cases h

/-- Lists filtered through keepChar contain neither spaces nor section
signs. -/
theorem filterMap_keepChar_safe (l : List Char) (c : Char)
    (hc : c = ' ' ∨ c = '§') :
    (l.filterMap keepChar).any (fun x => x == c) = false := by
  cases hany : (l.filterMap keepChar).any (fun x => x == c) with
  | false => rfl
  | true =>
    exfalso
    obtain ⟨x, hmem, hx⟩ := List.any_eq_true.mp hany
    obtain ⟨d, _, hd⟩ := List.mem_filterMap.mp hmem
    have hxc : x = c := by simpa using hx
    rcases keepChar_safe d x hd with ⟨h1, h2⟩
    rcases hc with h | h
    · exact h1 (by rw [hxc, h])
    · exact h2 (by rw [hxc, h])

/-- Slugified strings contain neither spaces nor section signs. -/
theorem slugify_clean (s : String) :
    hasChar (slugify s) ' ' = false ∧ hasChar (slugify s) '§' = false :=
  ⟨filterMap_keepChar_safe (s.data.map Char.toLower) ' ' (Or.inl rfl),
   filterMap_keepChar_safe (s.data.map Char.toLower) '§' (Or.inr rfl)⟩

/-- Slugified strings never parse as citations. -/
theorem parse_cite_slugify (s : String) : parse_cite (slugify s) = none := by
  rcases slugify_clean s with ⟨h1, h2⟩
  simp [parse_cite, h1, h2]

/-- Claim C5: a series (or volume) path component that does not parse
as a citation and is a known series (or volume) only after
slugification redirects to the slugified URL, which then resolves with
a rendered page; a component matching no valid series or volume is a
404. -/
theorem C5_slug_redirects_and_404
    (slugs : List String) (series : String)
    (volumes : List (String × String)) (vseries vvolume : String) :
    (parse_cite series = none → series ∉ slugs → slugify series ∈ slugs →
      series_view slugs series = ViewResponse.redirect (series_url (slugify series)) ∧
      series_view slugs (slugify series) = ViewResponse.ok) ∧
    (parse_cite series = none → series ∉ slugs → slugify series ∉ slugs →
      series_view slugs series = ViewResponse.notFound) ∧
    ((vseries, vvolume) ∉ volumes → (slugify vseries, slugify vvolume) ∈ volumes →
      volume_view volumes vseries vvolume
        = ViewResponse.redirect (volume_url (slugify vseries) (slugify vvolume)) ∧
      volume_view volumes (slugify vseries) (slugify vvolume) = ViewResponse.ok) ∧
    ((vseries, vvolume) ∉ volumes → (slugify vseries, slugify vvolume) ∉ volumes →
      volume_view volumes vseries vvolume = ViewResponse.notFound) := by
  refine ⟨?_, ?_, ?_, ?_⟩
  · intro hp hnot hmem
    constructor
    · simp [series_view, hp, hnot, hmem]
    · simp [series_view, parse_cite_slugify, hmem]
  · intro hp hnot hnmem
    simp [series_view, hp, hnot, hnmem]
  · intro hnot hmem
    constructor
    · simp [volume_view, hnot, hmem]
    · simp [volume_view, hmem]
  · intro hnot hnmem
    simp [volume_view, hnot, hnmem]

/-- Witness for C5: the series component with a trailing period
redirects to its slug, which renders; an asterisk is a 404; the same
for the volume page. -/
theorem C5_witness :
    (series_view ["mass"] "Mass." = ViewResponse.redirect (series_url "mass") ∧
     series_view ["mass"] (slugify "Mass.") = ViewResponse.ok) ∧
    series_view ["mass"] "*" = ViewResponse.notFound ∧
    (volume_view [("mass", "1")] "Mass." "1"
        = ViewResponse.redirect (volume_url "mass" "1") ∧
     volume_view [("mass", "1")] (slugify "Mass.") (slugify "1") = ViewResponse.ok) ∧
    volume_view [("mass", "1")] "Mass." "*" = ViewResponse.notFound := by
  have h := C5_slug_redirects_and_404 ["mass"] "Mass." [("mass", "1")] "Mass." "1"
  have h2 := C5_slug_redirects_and_404 ["mass"] "*" [("mass", "1")] "Mass." "*"
  refine ⟨?_, ?_, ?_, ?_⟩
  · have := h.1 (by decide) (by decide) (by decide)
    simpa using this
  · exact h2.2.1 (by decide) (by decide) (by decide)
  · have := h.2.2.1 (by decide) (by decide)
    simpa using this
  · exact h2.2.2.2 (by decide) (by decide)

/-- Claim C6: a series path component parsing as a full case citation
redirects to the corresponding case page URL, and one parsing as a
statutory citation redirects to the citation search page with the
component as query. -/
theorem C6_citation_redirects
    (slugs : List String) (s series volume page : String) :
    (parse_cite s = some (Cite.caseCite series volume page) →
      series_view slugs s = ViewResponse.redirect (case_url series volume page)) ∧
    (parse_cite s = some Cite.statuteCite →
      series_view slugs s = ViewResponse.redirect (citations_url s)) := by
  constructor
  · intro hp; simp [series_view, hp]
  · intro hp; simp [series_view, hp]

/-- Witness for C6: the component 1 Mass. 1 redirects to the case page
/mass/1/1/ and the component 11 U.S.C. § 550 redirects to the citation
search page with itself as the query. -/
theorem C6_witness :
    series_view [] "1 Mass. 1" = ViewResponse.redirect (case_url "mass" "1" "1") ∧
    series_view [] "11 U.S.C. § 550"
      = ViewResponse.redirect (citations_url "11 U.S.C. § 550") :=
  ⟨(C6_citation_redirects [] "1 Mass. 1" "mass" "1" "1").1 (by decide),
   (C6_citation_redirects [] "11 U.S.C. § 550" "mass" "1" "1").2 (by decide)⟩

/-- Claim C1, as stated, fails on the reset path: a restricted-case
request on a session whose allowance was last updated more than 24
hours ago is served, but the allowance afterwards is the daily
allowance minus one (499 here), not the stored value minus one. -/
theorem C1_counterexample :
    (serve_case ⟨500⟩ ⟨RType.html, false, false, 86402⟩ ⟨3, 0⟩).1.has_case_text = true ∧
    ¬ (serve_case ⟨500⟩ ⟨RType.html, false, false, 86402⟩ ⟨3, 0⟩).2.case_allowance_remaining
        = 3 - 1 := by
  decide

/-- Claim C1 (amended): for an anonymous session whose allowance window
is current (last update within 24 hours), viewing a restricted case
with a positive remaining allowance n serves the case body and leaves
the allowance at n - 1; viewing a whitelisted case serves the case body
and leaves the whole session unchanged. -/
theorem C1_restricted_decrement_whitelisted_unchanged
    (cfg : Config) (req : CaseRequest) (s : Session) :
    (req.whitelisted = false →
      req.now ≤ s.case_allowance_last_updated + quotaWindow →
      0 < s.case_allowance_remaining →
      (serve_case cfg req s).1.status = 200 ∧
      (serve_case cfg req s).1.has_case_text = true ∧
      (serve_case cfg req s).2.case_allowance_remaining
        = s.case_allowance_remaining - 1) ∧
    (req.whitelisted = true →
      (serve_case cfg req s).1.has_case_text = true ∧
      (serve_case cfg req s).2 = s) := by
  constructor
  · intro hw hfresh hpos
    have hrefresh : refreshSession cfg req.now s = s := by
      simp [refreshSession, Nat.not_lt.mpr hfresh]
    simp [serve_case, hw, hrefresh, hpos]
  · intro hw
    simp [serve_case, hw]

/-- Witness for C1: a fresh session with allowance 5 viewing a
restricted case is served and drops to 4; a whitelisted case is served
with the session untouched. -/
theorem C1_witness :
    ((serve_case ⟨500⟩ ⟨RType.html, false, false, 1000⟩ ⟨5, 1000⟩).1.status = 200 ∧
     (serve_case ⟨500⟩ ⟨RType.html, false, false, 1000⟩ ⟨5, 1000⟩).1.has_case_text = true ∧
     (serve_case ⟨500⟩ ⟨RType.html, false, false, 1000⟩ ⟨5, 1000⟩).2.case_allowance_remaining
        = 5 - 1) ∧
    ((serve_case ⟨500⟩ ⟨RType.pdf, true, false, 0⟩ ⟨0, 0⟩).1.has_case_text = true ∧
     (serve_case ⟨500⟩ ⟨RType.pdf, true, false, 0⟩ ⟨0, 0⟩).2 = (⟨0, 0⟩ : Session)) :=
  ⟨(C1_restricted_decrement_whitelisted_unchanged ⟨500⟩ ⟨RType.html, false, false, 1000⟩
      ⟨5, 1000⟩).1 rfl (by decide) (by decide),
   (C1_restricted_decrement_whitelisted_unchanged ⟨500⟩ ⟨RType.pdf, true, false, 0⟩
      ⟨0, 0⟩).2 rfl⟩

/-- Claim C2, as stated, fails in two ways: (a) a session with
allowance 0 whose last update is more than 24 hours old is served the
case text and its allowance becomes 499, not 0; (b) a Google-bot
request with allowance 0 is served the case text rather than denied. -/
theorem C2_counterexample :
    ((serve_case ⟨500⟩ ⟨RType.html, false, false, 86401⟩ ⟨0, 0⟩).1.has_case_text = true ∧
     ¬ (serve_case ⟨500⟩ ⟨RType.html, false, false, 86401⟩ ⟨0, 0⟩).2.case_allowance_remaining
        = 0) ∧
    (serve_case ⟨500⟩ ⟨RType.html, false, true, 100⟩ ⟨0, 50⟩).1.has_case_text = true := by
  decide

/-- Claim C2 (amended): for a non-Google-bot request on a session whose
allowance window is current and whose allowance is 0, a restricted
HTML request yields a 200 response without the case text, a restricted
PDF request yields a 302 redirect, and in both variants the session is
unchanged (so the allowance remains 0). -/
theorem C2_quota_exhausted_denied
    (cfg : Config) (req : CaseRequest) (s : Session)
    (hw : req.whitelisted = false) (hbot : req.google_bot = false)
    (hfresh : req.now ≤ s.case_allowance_last_updated + quotaWindow)
    (hzero : s.case_allowance_remaining = 0) :
    (req.rtype = RType.html →
      (serve_case cfg req s).1.status = 200 ∧
      (serve_case cfg req s).1.has_case_text = false) ∧
    (req.rtype = RType.pdf → (serve_case cfg req s).1.status = 302) ∧
    (serve_case cfg req s).2 = s := by
  have hrefresh : refreshSession cfg req.now s = s := by
    simp [refreshSession, Nat.not_lt.mpr hfresh]
  cases hr : req.rtype <;>
    simp [serve_case, hw, hbot, hrefresh, hzero, hr]

/-- Witness for C2: with allowance 0 on a fresh session, the HTML
variant returns 200 without the case text and the PDF variant returns
302, both leaving the session unchanged. -/
theorem C2_witness :
    (((RType.html : RType) = RType.html →
      (serve_case ⟨500⟩ ⟨RType.html, false, false, 100⟩ ⟨0, 100⟩).1.status = 200 ∧
      (serve_case ⟨500⟩ ⟨RType.html, false, false, 100⟩ ⟨0, 100⟩).1.has_case_text = false) ∧
     ((RType.html : RType) = RType.pdf →
      (serve_case ⟨500⟩ ⟨RType.html, false, false, 100⟩ ⟨0, 100⟩).1.status = 302) ∧
     (serve_case ⟨500⟩ ⟨RType.html, false, false, 100⟩ ⟨0, 100⟩).2 = (⟨0, 100⟩ : Session)) ∧
    (((RType.pdf : RType) = RType.pdf →
      (serve_case ⟨500⟩ ⟨RType.pdf, false, false, 100⟩ ⟨0, 100⟩).1.status = 302) ∧
     (serve_case ⟨500⟩ ⟨RType.pdf, false, false, 100⟩ ⟨0, 100⟩).2 = (⟨0, 100⟩ : Session)) :=
  ⟨C2_quota_exhausted_denied ⟨500⟩ ⟨RType.html, false, false, 100⟩ ⟨0, 100⟩
      rfl rfl (by decide) rfl,
   ⟨(C2_quota_exhausted_denied ⟨500⟩ ⟨RType.pdf, false, false, 100⟩ ⟨0, 100⟩
      rfl rfl (by decide) rfl).2.1,
    (C2_quota_exhausted_denied ⟨500⟩ ⟨RType.pdf, false, false, 100⟩ ⟨0, 100⟩
      rfl rfl (by decide) rfl).2.2⟩⟩

/-- Claim C3: when the session allowance was last updated more than 24
hours (86400 seconds) ago, the next restricted-case request is served
with the case text and the allowance afterwards is the configured
daily allowance minus 1, regardless of the allowance stored before. -/
theorem C3_daily_reset
    (cfg : Config) (req : CaseRequest) (s : Session)
    (hw : req.whitelisted = false)
    (hstale : s.case_allowance_last_updated + quotaWindow < req.now)
    (hd : 0 < cfg.api_case_daily_allowance) :
    (serve_case cfg req s).1.status = 200 ∧
    (serve_case cfg req s).1.has_case_text = true ∧
    (serve_case cfg req s).2.case_allowance_remaining
      = cfg.api_case_daily_allowance - 1 := by
  have hrefresh : refreshSession cfg req.now s
      = ⟨cfg.api_case_daily_allowance, req.now⟩ := by
    simp [refreshSession, hstale]
  simp [serve_case, hw, hrefresh, hd]

/-- Witness for C3: a session with allowance 0 last updated 86401
seconds before the request is served and ends at 500 - 1 = 499. -/
theorem C3_witness :
    (serve_case ⟨500⟩ ⟨RType.html, false, false, 86401⟩ ⟨0, 0⟩).1.status = 200 ∧
    (serve_case ⟨500⟩ ⟨RType.html, false, false, 86401⟩ ⟨0, 0⟩).1.has_case_text = true ∧
    (serve_case ⟨500⟩ ⟨RType.html, false, false, 86401⟩ ⟨0, 0⟩).2.case_allowance_remaining
      = 500 - 1 :=
  C3_daily_reset ⟨500⟩ ⟨RType.html, false, false, 86401⟩ ⟨0, 0⟩ rfl (by decide) (by decide)

/-- Claim C9: a request identified as a Google bot for a restricted
case is served the full case text even with allowance 0, and the
response is not cached. -/
theorem C9_google_bot_bypass
    (cfg : Config) (req : CaseRequest) (s : Session)
    (hw : req.whitelisted = false) (hbot : req.google_bot = true)
    (hzero : s.case_allowance_remaining = 0) :
    (serve_case cfg req s).1.status = 200 ∧
    (serve_case cfg req s).1.has_case_text = true ∧
    (serve_case cfg req s).1.cached = false := by
  by_cases hstale : s.case_allowance_last_updated + quotaWindow < req.now
  · have hrefresh : refreshSession cfg req.now s
        = ⟨cfg.api_case_daily_allowance, req.now⟩ := by
      simp [refreshSession, hstale]
    by_cases hd : 0 < cfg.api_case_daily_allowance
    · simp [serve_case, hw, hrefresh, hd]
    · cases hr : req.rtype <;> simp [serve_case, hw, hbot, hrefresh, hd, hr]
  · have hrefresh : refreshSession cfg req.now s = s := by
      simp [refreshSession, hstale]
    cases hr : req.rtype <;> simp [serve_case, hw, hbot, hrefresh, hzero, hr]

/-- Witness for C9: a Google-bot HTML request with allowance 0 gets the
case text with an uncached 200 response. -/
theorem C9_witness :
    (serve_case ⟨500⟩ ⟨RType.html, false, true, 100⟩ ⟨0, 100⟩).1.status = 200 ∧
    (serve_case ⟨500⟩ ⟨RType.html, false, true, 100⟩ ⟨0, 100⟩).1.has_case_text = true ∧
    (serve_case ⟨500⟩ ⟨RType.html, false, true, 100⟩ ⟨0, 100⟩).1.cached = false :=
  C9_google_bot_bypass ⟨500⟩ ⟨RType.html, false, true, 100⟩ ⟨0, 100⟩ rfl rfl rfl

/-! ## Timeline documents (labs)

JSON values as stored in the labs Timeline.timeline column.  Distinct
constructors keep the Python distinction between booleans and integers,
which the migration relies on. -/

/-- A JSON value. -/
inductive JVal where
  | jnull
  | jbool (b : Bool)
  | jint (n : Int)
  | jstr (s : String)
  | jarr (elems : List JVal)
  | jobj (fields : List (String × JVal))
deriving Repr

/-- First value bound to a key in a JSON object. -/
def jlookup (fields : List (String × JVal)) (k : String) : Option JVal :=
  match fields with
  | [] => none
  | (k2, v) :: rest => if k2 = k then some v else jlookup rest k

/-! ## Timeline JSON validation (labs update view)

Modelled from the spec: the labs view code performing server-side
validation of the semi-structured JSON timeline document is not under
the shipped sources.  The validator checks required keys and value
types on the timeline document, on each case object and on each event
object, reporting the offending field in the error message; the update
endpoint returns the message with HTTP 400 and leaves the stored
timeline unchanged, while a valid document is saved and echoed back. -/

/-- Value types distinguished by the validator. -/
inductive JType where
  | tstr
  | tarr
deriving DecidableEq, Repr

/-- Whether a JSON value has the given type. -/
def typeIs (t : JType) (v : JVal) : Bool :=
  match t, v with
  | JType.tstr, JVal.jstr _ => true
  | JType.tarr, JVal.jarr _ => true
  | _, _ => false

/-- Required keys of the timeline document. -/
def timeline_required : List String := ["title"]

/-- Known timeline keys and their expected types. -/
def timeline_field_types : List (String × JType) :=
  [("title", JType.tstr), ("subhead", JType.tstr), ("author", JType.tstr),
   ("cases", JType.tarr), ("events", JType.tarr), ("categories", JType.tarr)]

/-- Required keys of a case object. -/
def case_required : List String := ["name"]

/-- Known case keys and their expected types. -/
def case_field_types : List (String × JType) :=
  [("name", JType.tstr), ("short_description", JType.tstr),
   ("long_description", JType.tstr), ("decision_date", JType.tstr),
   ("url", JType.tstr), ("citation", JType.tstr), ("categories", JType.tarr)]

/-- Required keys of an event object. -/
def event_required : List String := ["name", "start_date", "end_date"]

/-- Known event keys and their expected types. -/
def event_field_types : List (String × JType) :=
  [("name", JType.tstr), ("start_date", JType.tstr), ("end_date", JType.tstr),
   ("short_description", JType.tstr), ("long_description", JType.tstr),
   ("categories", JType.tarr)]

/-- First missing required key, reported with the given message head. -/
def checkRequired (msgHead : String) (req : List String)
    (fields : List (String × JVal)) : Option String :=
  match req with
  | [] => none
  | k :: rest =>
    if (jlookup fields k).isSome then checkRequired msgHead rest fields
    else some (msgHead ++ k)

/-- First present key whose value has the wrong type, reported with the
given message head. -/
def checkTypes (msgHead : String) (specs : List (String × JType))
    (fields : List (String × JVal)) : Option String :=
  match specs with
  | [] => none
  | (k, t) :: rest =>
    match jlookup fields k with
    | some v =>
      if typeIs t v then checkTypes msgHead rest fields
      else some (msgHead ++ k)
    | none => checkTypes msgHead rest fields

/-- Fields of an object value; anything else validates as empty. -/
def asObj : JVal → List (String × JVal)
  | JVal.jobj fields => fields
  | _ => []

/-- Validate each object of a list, reporting the first missing key or
wrong-typed value. -/
def checkObjList (missingHead typeHead : String) (req : List String)
    (specs : List (String × JType)) : List JVal → Option String
  | [] => none
  | v :: rest =>
    match checkRequired missingHead req (asObj v) with
    | some m => some m
    | none =>
      match checkTypes typeHead specs (asObj v) with
      | some m => some m
      | none => checkObjList missingHead typeHead req specs rest

/-- Elements of an array-valued key, or empty when absent. -/
def jarrOrEmpty (fields : List (String × JVal)) (k : String) : List JVal :=
  match jlookup fields k with
  | some (JVal.jarr l) => l
  | _ => []

/-- Modelled from the spec: server-side validation of a submitted
timeline document.  Returns the first error message, or none for a
well-formed document. -/
def validate_timeline (tl : List (String × JVal)) : Option String :=
  match checkRequired "Timeline Missing: " timeline_required tl with
  | some m => some m
  | none =>
  match checkTypes "Wrong Data Type for " timeline_field_types tl with
  | some m => some m
  | none =>
  match checkObjList "Case Missing: " "Case Has Wrong Data Type for "
      case_required case_field_types (jarrOrEmpty tl "cases") with
  | some m => some m
  | none =>
  checkObjList "Event Missing: " "Event Has Wrong Data Type for "
      event_required event_field_types (jarrOrEmpty tl "events")

/-! ## Timeline CRUD endpoints (labs)

Modelled from the spec: the labs REST-ish JSON API for timeline CRUD is
not under the shipped sources.  Creation, update and deletion require
an authenticated user (the timeline owner for update and delete) and
answer 403 with a JSON error body otherwise, leaving stored timelines
untouched; retrieval by id is open to any client. -/

/-- A stored timeline row. -/
structure TimelineRec where
  id : Nat
  created_by : Nat
  timeline : List (String × JVal)

/-- JSON API response: HTTP status, error message, echoed timeline. -/
structure ApiResponse where
  status : Nat
  error : Option String
  timeline : Option (List (String × JVal))

/-- Stored timeline with the given id, if any. -/
def findTimeline (st : List TimelineRec) (id : Nat) : Option TimelineRec :=
  match st with
  | [] => none
  | tl :: rest => if tl.id = id then some tl else findTimeline rest id

/-- An id unused by the stored timelines. -/
def freshId (st : List TimelineRec) : Nat :=
  st.foldr (fun tl acc => max (tl.id + 1) acc) 1

/-- Modelled from the spec: the timeline create endpoint. -/
def timeline_create (st : List TimelineRec) (auth : Option Nat)
    (doc : List (String × JVal)) : ApiResponse × List TimelineRec :=
  match auth with
  | none => (⟨403, some "Authentication credentials were not provided.", none⟩, st)
  | some u => (⟨200, none, some doc⟩, st ++ [⟨freshId st, u, doc⟩])

/-- Modelled from the spec: the timeline retrieve endpoint, open to any
client. -/
def timeline_retrieve (st : List TimelineRec) (_auth : Option Nat) (id : Nat) :
    ApiResponse :=
  match findTimeline st id with
  | none => ⟨404, some "Timeline not found", none⟩
  | some tl => ⟨200, none, some tl.timeline⟩

/-- Modelled from the spec: the timeline update endpoint.  Requires the
authenticated owner, validates the submitted document, and either
reports the validation error with HTTP 400 or saves and echoes the new
document. -/
def timeline_update (st : List TimelineRec) (auth : Option Nat) (id : Nat)
    (doc : List (String × JVal)) : ApiResponse × List TimelineRec :=
  match auth with
  | none => (⟨403, some "Authentication credentials were not provided.", none⟩, st)
  | some u =>
    match findTimeline st id with
    | none => (⟨404, some "Timeline not found", none⟩, st)
    | some tl =>
      if tl.created_by = u then
        match validate_timeline doc with
        | some m => (⟨400, some m, none⟩, st)
        | none =>
          (⟨200, none, some doc⟩,
           st.map (fun r => if r.id = id then ⟨r.id, r.created_by, doc⟩ else r))
      else (⟨403, some "Timeline not owned by user", none⟩, st)

/-- Modelled from the spec: the timeline delete endpoint.  Requires the
authenticated owner. -/
def timeline_delete (st : List TimelineRec) (auth : Option Nat) (id : Nat) :
    ApiResponse × List TimelineRec :=
  match auth with
  | none => (⟨403, some "Authentication credentials were not provided.", none⟩, st)
  | some u =>
    match findTimeline st id with
    | none => (⟨404, some "Timeline not found", none⟩, st)
    | some tl =>
      if tl.created_by = u then
        (⟨200, none, none⟩, st.filter (fun r => r.id != id))
      else (⟨403, some "Timeline not owned by user", none⟩, st)

/-- String values have string type. -/
theorem typeIs_tstr_jstr (s : String) : typeIs JType.tstr (JVal.jstr s) = true := rfl

/-- Update response and state when validation fails for the owner. -/
theorem update_reports_error (st : List TimelineRec) (u id_ : Nat)
    (doc : List (String × JVal)) (tl : TimelineRec) (m : String)
    (hfind : findTimeline st id_ = some tl) (hown : tl.created_by = u)
    (hval : validate_timeline doc = some m) :
    timeline_update st (some u) id_ doc = (⟨400, some m, none⟩, st) := by
  simp [timeline_update, hfind, hown, hval]

/-- Update response when validation succeeds for the owner. -/
theorem update_applies (st : List TimelineRec) (u id_ : Nat)
    (doc : List (String × JVal)) (tl : TimelineRec)
    (hfind : findTimeline st id_ = some tl) (hown : tl.created_by = u)
    (hval : validate_timeline doc = none) :
    (timeline_update st (some u) id_ doc).1 = ⟨200, none, some doc⟩ := by
  simp [timeline_update, hfind, hown, hval]

/-- Claim C7: unauthenticated create, update and delete requests answer
403 with a JSON error body and leave the stored timelines unchanged,
while retrieval by id returns the stored timeline for any client. -/
theorem C7_crud_authorization (st : List TimelineRec)
    (doc : List (String × JVal)) (id_ : Nat) :
    ((timeline_create st none doc).1.status = 403 ∧
     (timeline_create st none doc).1.error.isSome = true ∧
     (timeline_create st none doc).2 = st) ∧
    ((timeline_update st none id_ doc).1.status = 403 ∧
     (timeline_update st none id_ doc).1.error.isSome = true ∧
     (timeline_update st none id_ doc).2 = st) ∧
    ((timeline_delete st none id_).1.status = 403 ∧
     (timeline_delete st none id_).1.error.isSome = true ∧
     (timeline_delete st none id_).2 = st) ∧
    (∀ tl, findTimeline st id_ = some tl →
      ∀ auth, timeline_retrieve st auth id_ = ⟨200, none, some tl.timeline⟩) := by
  refine ⟨⟨rfl, rfl, rfl⟩, ⟨rfl, rfl, rfl⟩, ⟨rfl, rfl, rfl⟩, ?_⟩
  intro tl hf auth
  simp [timeline_retrieve, hf]

/-- Witness for C7: on a store holding one timeline, anonymous and
authenticated retrieval both return it, and an anonymous create is
rejected with 403 leaving the store unchanged. -/
theorem C7_witness :
    (timeline_retrieve [⟨1, 7, [("title", JVal.jstr "t")]⟩] none 1
      = ⟨200, none, some [("title", JVal.jstr "t")]⟩) ∧
    (timeline_retrieve [⟨1, 7, [("title", JVal.jstr "t")]⟩] (some 5) 1
      = ⟨200, none, some [("title", JVal.jstr "t")]⟩) ∧
    (timeline_create [⟨1, 7, [("title", JVal.jstr "t")]⟩] none []).1.status = 403 ∧
    (timeline_create [⟨1, 7, [("title", JVal.jstr "t")]⟩] none []).2
      = [⟨1, 7, [("title", JVal.jstr "t")]⟩] :=
  ⟨(C7_crud_authorization [⟨1, 7, [("title", JVal.jstr "t")]⟩] [] 1).2.2.2
      ⟨1, 7, [("title", JVal.jstr "t")]⟩ rfl none,
   (C7_crud_authorization [⟨1, 7, [("title", JVal.jstr "t")]⟩] [] 1).2.2.2
      ⟨1, 7, [("title", JVal.jstr "t")]⟩ rfl (some 5),
   (C7_crud_authorization [⟨1, 7, [("title", JVal.jstr "t")]⟩] [] 1).1.1,
   (C7_crud_authorization [⟨1, 7, [("title", JVal.jstr "t")]⟩] [] 1).1.2.2⟩

/-- Claim C4: an owner-submitted timeline document missing the title,
with a wrong-typed title, with a case missing its required name or
with a wrong-typed case value, or with an event missing its required
end_date or with a wrong-typed event value, is answered with HTTP 400,
an error message naming the offending field, and an unchanged store;
a well-formed document is accepted and echoed back. -/
theorem C4_update_validation (st : List TimelineRec) (u id_ : Nat)
    (tl : TimelineRec) (doc : List (String × JVal))
    (hfind : findTimeline st id_ = some tl) (hown : tl.created_by = u) :
    (jlookup doc "title" = none →
      timeline_update st (some u) id_ doc
        = (⟨400, some "Timeline Missing: title", none⟩, st)) ∧
    (∀ v, jlookup doc "title" = some v → typeIs JType.tstr v = false →
      timeline_update st (some u) id_ doc
        = (⟨400, some "Wrong Data Type for title", none⟩, st)) ∧
    (∀ c cs, (jlookup doc "title").isSome = true →
      checkTypes "Wrong Data Type for " timeline_field_types doc = none →
      jlookup doc "cases" = some (JVal.jarr (c :: cs)) →
      jlookup (asObj c) "name" = none →
      timeline_update st (some u) id_ doc
        = (⟨400, some "Case Missing: name", none⟩, st)) ∧
    (∀ c cs v, (jlookup doc "title").isSome = true →
      checkTypes "Wrong Data Type for " timeline_field_types doc = none →
      jlookup doc "cases" = some (JVal.jarr (c :: cs)) →
      jlookup (asObj c) "name" = some v → typeIs JType.tstr v = false →
      timeline_update st (some u) id_ doc
        = (⟨400, some "Case Has Wrong Data Type for name", none⟩, st)) ∧
    (∀ e es, (jlookup doc "title").isSome = true →
      checkTypes "Wrong Data Type for " timeline_field_types doc = none →
      jlookup doc "cases" = none →
      jlookup doc "events" = some (JVal.jarr (e :: es)) →
      (jlookup (asObj e) "name").isSome = true →
      (jlookup (asObj e) "start_date").isSome = true →
      jlookup (asObj e) "end_date" = none →
      timeline_update st (some u) id_ doc
        = (⟨400, some "Event Missing: end_date", none⟩, st)) ∧
    (∀ e es n sd ed v, (jlookup doc "title").isSome = true →
      checkTypes "Wrong Data Type for " timeline_field_types doc = none →
      jlookup doc "cases" = none →
      jlookup doc "events" = some (JVal.jarr (e :: es)) →
      jlookup (asObj e) "name" = some (JVal.jstr n) →
      jlookup (asObj e) "start_date" = some (JVal.jstr sd) →
      jlookup (asObj e) "end_date" = some (JVal.jstr ed) →
      jlookup (asObj e) "short_description" = some v →
      typeIs JType.tstr v = false →
      timeline_update st (some u) id_ doc
        = (⟨400, some "Event Has Wrong Data Type for short_description", none⟩, st)) ∧
    (validate_timeline doc = none →
      (timeline_update st (some u) id_ doc).1 = ⟨200, none, some doc⟩) := by
  refine ⟨?_, ?_, ?_, ?_, ?_, ?_, ?_⟩
  · intro h
    apply update_reports_error st u id_ doc tl _ hfind hown
    simp [validate_timeline, checkRequired, timeline_required, h]
  · intro v hv ht
    apply update_reports_error st u id_ doc tl _ hfind hown
    simp [validate_timeline, checkRequired, timeline_required, hv,
      checkTypes, timeline_field_types, ht]
  · intro c cs htitle htypes hcases hname
    apply update_reports_error st u id_ doc tl _ hfind hown
    have h1 : checkRequired "Timeline Missing: " timeline_required doc = none := by
      simp [checkRequired, timeline_required, htitle]
    have h3 : checkObjList "Case Missing: " "Case Has Wrong Data Type for "
        case_required case_field_types (jarrOrEmpty doc "cases")
        = some "Case Missing: name" := by
      simp [jarrOrEmpty, hcases, checkObjList, checkRequired, case_required, hname]
    simp [validate_timeline, h1, htypes, h3]
  · intro c cs v htitle htypes hcases hname ht
    apply update_reports_error st u id_ doc tl _ hfind hown
    have h1 : checkRequired "Timeline Missing: " timeline_required doc = none := by
      simp [checkRequired, timeline_required, htitle]
    have h3 : checkObjList "Case Missing: " "Case Has Wrong Data Type for "
        case_required case_field_types (jarrOrEmpty doc "cases")
        = some "Case Has Wrong Data Type for name" := by
      simp [jarrOrEmpty, hcases, checkObjList, checkRequired, case_required,
        hname, checkTypes, case_field_types, ht]
    simp [validate_timeline, h1, htypes, h3]
  · intro e es htitle htypes hcases hevents hname hstart hend
    apply update_reports_error st u id_ doc tl _ hfind hown
    have h1 : checkRequired "Timeline Missing: " timeline_required doc = none := by
      simp [checkRequired, timeline_required, htitle]
    have h3 : checkObjList "Case Missing: " "Case Has Wrong Data Type for "
        case_required case_field_types (jarrOrEmpty doc "cases") = none := by
      simp [jarrOrEmpty, hcases, checkObjList]
    have h4 : checkObjList "Event Missing: " "Event Has Wrong Data Type for "
        event_required event_field_types (jarrOrEmpty doc "events")
        = some "Event Missing: end_date" := by
      simp [jarrOrEmpty, hevents, checkObjList, checkRequired, event_required,
        hname, hstart, hend]
    simp [validate_timeline, h1, htypes, h3, h4]
  · intro e es n sd ed v htitle htypes hcases hevents hname hstart hend hshort ht
    apply update_reports_error st u id_ doc tl _ hfind hown
    have h1 : checkRequired "Timeline Missing: " timeline_required doc = none := by
      simp [checkRequired, timeline_required, htitle]
    have h3 : checkObjList "Case Missing: " "Case Has Wrong Data Type for "
        case_required case_field_types (jarrOrEmpty doc "cases") = none := by
      simp [jarrOrEmpty, hcases, checkObjList]
    have h4 : checkObjList "Event Missing: " "Event Has Wrong Data Type for "
        event_required event_field_types (jarrOrEmpty doc "events")
        = some "Event Has Wrong Data Type for short_description" := by
      simp [jarrOrEmpty, hevents, checkObjList, checkRequired, event_required,
        hname, hstart, hend, hshort, checkTypes, event_field_types,
        typeIs_tstr_jstr, ht]
    simp [validate_timeline, h1, htypes, h3, h4]
  · intro hval
    exact update_applies st u id_ doc tl hfind hown hval

/-- Witness for C4: the malformed documents of the labs test suite are
rejected with 400 and the message naming the offending field, and a
well-formed document is echoed back with 200. -/
theorem C4_witness :
    (timeline_update [⟨1, 7, [("title", JVal.jstr "My first timeline")]⟩] (some 7) 1
        [("subhead", JVal.jstr "And my very best one")]
      = (⟨400, some "Timeline Missing: title", none⟩,
         [⟨1, 7, [("title", JVal.jstr "My first timeline")]⟩])) ∧
    (timeline_update [⟨1, 7, [("title", JVal.jstr "My first timeline")]⟩] (some 7) 1
        [("title", JVal.jarr [])]
      = (⟨400, some "Wrong Data Type for title", none⟩,
         [⟨1, 7, [("title", JVal.jstr "My first timeline")]⟩])) ∧
    (timeline_update [⟨1, 7, [("title", JVal.jstr "My first timeline")]⟩] (some 7) 1
        [("title", JVal.jstr "Rad"),
         ("cases", JVal.jarr [JVal.jobj [("What even is", JVal.jstr "this?")]])]
      = (⟨400, some "Case Missing: name", none⟩,
         [⟨1, 7, [("title", JVal.jstr "My first timeline")]⟩])) ∧
    (timeline_update [⟨1, 7, [("title", JVal.jstr "My first timeline")]⟩] (some 7) 1
        [("title", JVal.jstr "Rad"),
         ("cases", JVal.jarr [JVal.jobj [("name", JVal.jarr [JVal.jstr "what"])]])]
      = (⟨400, some "Case Has Wrong Data Type for name", none⟩,
         [⟨1, 7, [("title", JVal.jstr "My first timeline")]⟩])) ∧
    (timeline_update [⟨1, 7, [("title", JVal.jstr "My first timeline")]⟩] (some 7) 1
        [("title", JVal.jstr "Rad"),
         ("events", JVal.jarr [JVal.jobj [("name", JVal.jstr "wow"),
           ("start_date", JVal.jstr "1975-12-16")]])]
      = (⟨400, some "Event Missing: end_date", none⟩,
         [⟨1, 7, [("title", JVal.jstr "My first timeline")]⟩])) ∧
    (timeline_update [⟨1, 7, [("title", JVal.jstr "My first timeline")]⟩] (some 7) 1
        [("title", JVal.jstr "Rad"),
         ("events", JVal.jarr [JVal.jobj [("name", JVal.jstr "wow"),
           ("start_date", JVal.jstr "1975-12-16"),
           ("end_date", JVal.jstr "1975-12-16"),
           ("short_description", JVal.jobj [("guess", JVal.jstr "who")])]])]
      = (⟨400, some "Event Has Wrong Data Type for short_description", none⟩,
         [⟨1, 7, [("title", JVal.jstr "My first timeline")]⟩])) ∧
    ((timeline_update [⟨1, 7, [("title", JVal.jstr "My first timeline")]⟩] (some 7) 1
        [("title", JVal.jstr "My second timeline attempt")]).1
      = ⟨200, none, some [("title", JVal.jstr "My second timeline attempt")]⟩) :=
  ⟨(C4_update_validation [⟨1, 7, [("title", JVal.jstr "My first timeline")]⟩] 7 1
      ⟨1, 7, [("title", JVal.jstr "My first timeline")]⟩
      [("subhead", JVal.jstr "And my very best one")] rfl rfl).1 rfl,
   (C4_update_validation [⟨1, 7, [("title", JVal.jstr "My first timeline")]⟩] 7 1
      ⟨1, 7, [("title", JVal.jstr "My first timeline")]⟩
      [("title", JVal.jarr [])] rfl rfl).2.1 (JVal.jarr []) rfl rfl,
   (C4_update_validation [⟨1, 7, [("title", JVal.jstr "My first timeline")]⟩] 7 1
      ⟨1, 7, [("title", JVal.jstr "My first timeline")]⟩
      [("title", JVal.jstr "Rad"),
       ("cases", JVal.jarr [JVal.jobj [("What even is", JVal.jstr "this?")]])]
      rfl rfl).2.2.1
      (JVal.jobj [("What even is", JVal.jstr "this?")]) [] rfl rfl rfl rfl,
   (C4_update_validation [⟨1, 7, [("title", JVal.jstr "My first timeline")]⟩] 7 1
      ⟨1, 7, [("title", JVal.jstr "My first timeline")]⟩
      [("title", JVal.jstr "Rad"),
       ("cases", JVal.jarr [JVal.jobj [("name", JVal.jarr [JVal.jstr "what"])]])]
      rfl rfl).2.2.2.1
      (JVal.jobj [("name", JVal.jarr [JVal.jstr "what"])]) []
      (JVal.jarr [JVal.jstr "what"]) rfl rfl rfl rfl rfl,
   (C4_update_validation [⟨1, 7, [("title", JVal.jstr "My first timeline")]⟩] 7 1
      ⟨1, 7, [("title", JVal.jstr "My first timeline")]⟩
      [("title", JVal.jstr "Rad"),
       ("events", JVal.jarr [JVal.jobj [("name", JVal.jstr "wow"),
         ("start_date", JVal.jstr "1975-12-16")]])] rfl rfl).2.2.2.2.1
      (JVal.jobj [("name", JVal.jstr "wow"), ("start_date", JVal.jstr "1975-12-16")])
      [] rfl rfl rfl rfl rfl rfl rfl,
   (C4_update_validation [⟨1, 7, [("title", JVal.jstr "My first timeline")]⟩] 7 1
      ⟨1, 7, [("title", JVal.jstr "My first timeline")]⟩
      [("title", JVal.jstr "Rad"),
       ("events", JVal.jarr [JVal.jobj [("name", JVal.jstr "wow"),
         ("start_date", JVal.jstr "1975-12-16"),
         ("end_date", JVal.jstr "1975-12-16"),
         ("short_description", JVal.jobj [("guess", JVal.jstr "who")])]])]
      rfl rfl).2.2.2.2.2.1
      (JVal.jobj [("name", JVal.jstr "wow"),
        ("start_date", JVal.jstr "1975-12-16"),
        ("end_date", JVal.jstr "1975-12-16"),
        ("short_description", JVal.jobj [("guess", JVal.jstr "who")])])
      [] "wow" "1975-12-16" "1975-12-16" (JVal.jobj [("guess", JVal.jstr "who")])
      rfl rfl rfl rfl rfl rfl rfl rfl rfl,
   (C4_update_validation [⟨1, 7, [("title", JVal.jstr "My first timeline")]⟩] 7 1
      ⟨1, 7, [("title", JVal.jstr "My first timeline")]⟩
      [("title", JVal.jstr "My second timeline attempt")] rfl rfl).2.2.2.2.2.2 rfl⟩

/-! ## Registration email validation (capapi/forms.py)

Embedding of RegisterUserForm.clean_email (capapi/forms.py lines
49-78).  The database lookup against CapUser.normalized_email, the
normalization function, the EmailBlocklist check and the Mailgun call
are external to the function and passed as parameters; the control flow
and messages below follow the source line by line. -/

/-- Whitespace characters matched by the regex character class used in
clean_email: for str patterns this is full Unicode whitespace, the
characters U+0009 to U+000D, the information separators U+001C to
U+001F, the space, next line U+0085, no-break space U+00A0, ogham
space mark U+1680, the U+2000 to U+200A spaces, the line and paragraph
separators U+2028 and U+2029, narrow no-break space U+202F, medium
mathematical space U+205F and ideographic space U+3000. -/
def isPySpace (c : Char) : Bool :=
  decide ((9 ≤ c.toNat ∧ c.toNat ≤ 13) ∨ (28 ≤ c.toNat ∧ c.toNat ≤ 31) ∨
    c.toNat = 32 ∨ c.toNat = 133 ∨ c.toNat = 160 ∨ c.toNat = 5760 ∨
    (8192 ≤ c.toNat ∧ c.toNat ≤ 8202) ∨ c.toNat = 8232 ∨ c.toNat = 8233 ∨
    c.toNat = 8239 ∨ c.toNat = 8287 ∨ c.toNat = 12288)

/-- Parsed JSON body of the Mailgun address-validate call. -/
structure MailgunResult where
  result : String
  reason : List String

/-- Embedded from RegisterUserForm.clean_email.  Checks, in order: no
whitespace in the address; no existing CapUser with the same normalized
email; the blocklist; and, only when VALIDATE_EMAIL_SIGNUPS is set, the
Mailgun verdict (none models a RequestException).  Returns the email
unchanged when every check passes. -/
def clean_email (normalize : String → String) (existingNormalized : List String)
    (email_allowed : String → Bool) (validate_signups : Bool)
    (mailgun : Option MailgunResult) (email : String) : Except String String :=
  if email.data.any isPySpace then
    Except.error "Email address may not contain spaces."
  else if normalize email ∈ existingNormalized then
    Except.error "A user with the same email address has already registered."
  else if !email_allowed email then
    Except.error "This email address is invalid. If you believe this is an error, please contact us."
  else if validate_signups then
    match mailgun with
    | none =>
      Except.error "Cannot connect to email validation server. If this problem persists, please contact us."
    | some r =>
      if r.result = "undeliverable" ||
          (r.result = "do_not_send" && r.reason.contains "mailbox_is_disposable_address") then
        Except.error "This email address is invalid. If you believe this is an error, please contact us."
      else Except.ok email
  else Except.ok email

/-- Claim C8: clean_email rejects every address containing whitespace,
every address whose normalized form matches an existing user, and
every address the blocklist refuses; with the external Mailgun
validation disabled it returns a passing address unchanged. -/
theorem C8_clean_email (normalize : String → String)
    (existingNormalized : List String) (email_allowed : String → Bool)
    (validate_signups : Bool) (mailgun : Option MailgunResult) (email : String) :
    (email.data.any isPySpace = true →
      ∃ m, clean_email normalize existingNormalized email_allowed
        validate_signups mailgun email = Except.error m) ∧
    (normalize email ∈ existingNormalized →
      ∃ m, clean_email normalize existingNormalized email_allowed
        validate_signups mailgun email = Except.error m) ∧
    (email_allowed email = false →
      ∃ m, clean_email normalize existingNormalized email_allowed
        validate_signups mailgun email = Except.error m) ∧
    (email.data.any isPySpace = false →
      normalize email ∉ existingNormalized →
      email_allowed email = true → validate_signups = false →
      clean_email normalize existingNormalized email_allowed
        validate_signups mailgun email = Except.ok email) := by
  refine ⟨?_, ?_, ?_, ?_⟩
  · intro h
    exact ⟨"Email address may not contain spaces.", by simp [clean_email, h]⟩
  · intro h
    by_cases h1 : email.data.any isPySpace = true
    · exact ⟨"Email address may not contain spaces.", by simp [clean_email, h1]⟩
    · exact ⟨"A user with the same email address has already registered.",
        by simp [clean_email, h1, h]⟩
  · intro h
    by_cases h1 : email.data.any isPySpace = true
    · exact ⟨"Email address may not contain spaces.", by simp [clean_email, h1]⟩
    · by_cases h2 : normalize email ∈ existingNormalized
      · exact ⟨"A user with the same email address has already registered.",
          by simp [clean_email, h1, h2]⟩
      · exact ⟨"This email address is invalid. If you believe this is an error, please contact us.",
          by simp [clean_email, h1, h2, h]⟩
  · intro h1 h2 h3 h4
    simp [clean_email, h1, h2, h3, h4]

/-- Witness for C8: an address with a space, an address with a Unicode
no-break space, an address equal to an existing user after
lowercasing, and a blocklisted address are all rejected; a clean
address is returned unchanged with Mailgun validation off. -/
theorem C8_witness :
    (∃ m, clean_email (fun e => String.mk (e.data.map Char.toLower)) ["a@b.com"]
      (fun e => !(e == "bad@x.com")) false none "a b@c.com" = Except.error m) ∧
    (∃ m, clean_email (fun e => String.mk (e.data.map Char.toLower)) ["a@b.com"]
      (fun e => !(e == "bad@x.com")) false none "a b@c.com" = Except.error m) ∧
    (∃ m, clean_email (fun e => String.mk (e.data.map Char.toLower)) ["a@b.com"]
      (fun e => !(e == "bad@x.com")) false none "A@B.com" = Except.error m) ∧
    (∃ m, clean_email (fun e => String.mk (e.data.map Char.toLower)) ["a@b.com"]
      (fun e => !(e == "bad@x.com")) false none "bad@x.com" = Except.error m) ∧
    (clean_email (fun e => String.mk (e.data.map Char.toLower)) ["a@b.com"]
      (fun e => !(e == "bad@x.com")) false none "ok@x.com" = Except.ok "ok@x.com") :=
  ⟨(C8_clean_email (fun e => String.mk (e.data.map Char.toLower)) ["a@b.com"]
      (fun e => !(e == "bad@x.com")) false none "a b@c.com").1 (by decide),
   (C8_clean_email (fun e => String.mk (e.data.map Char.toLower)) ["a@b.com"]
      (fun e => !(e == "bad@x.com")) false none "a b@c.com").1 (by decide),
   (C8_clean_email (fun e => String.mk (e.data.map Char.toLower)) ["a@b.com"]
      (fun e => !(e == "bad@x.com")) false none "A@B.com").2.1 (by decide),
   (C8_clean_email (fun e => String.mk (e.data.map Char.toLower)) ["a@b.com"]
      (fun e => !(e == "bad@x.com")) false none "bad@x.com").2.2.1 (by decide),
   (C8_clean_email (fun e => String.mk (e.data.map Char.toLower)) ["a@b.com"]
      (fun e => !(e == "bad@x.com")) false none "ok@x.com").2.2.2
      (by decide) (by decide) (by decide) rfl⟩

/-! ## Labs data migration 0007 (labs/migrations/0007_timeline_ids_categories.py)

Embedding of the forward migration functions change_ids and
add_categories.  An event, case or category object is reduced to the
two fields the migration reads or writes (id and categories); all
other fields are untouched by the source and elided.  The random
get_short_uuid generator is modelled by a supply of strings indexed by
a counter threaded through the traversal. -/

/-- An event, case or category object, restricted to the fields the
migration touches. -/
structure MObj where
  id : Option JVal
  categories : Option JVal
deriving Repr

/-- A timeline document as the migration reads it: the events and
cases keys are accessed unconditionally, categories only when
present. -/
structure MDoc where
  events : List MObj
  cases : List MObj
  categories : Option (List MObj)
deriving Repr

/-- The Python test type(x) is int (false on booleans). -/
def pyIsInt : JVal → Bool
  | JVal.jint _ => true
  | _ => false

/-- The Python test type(x) is str. -/
def pyIsStr : JVal → Bool
  | JVal.jstr _ => true
  | _ => false

/-- Embedded from change_ids, one event or case: reading the id of an
object without one raises KeyError (none); an integer id is replaced
by a fresh short uuid. -/
def change_obj_id (supply : Nat → String) (k : Nat) (o : MObj) :
    Option (MObj × Nat) :=
  match o.id with
  | none => none
  | some v =>
    if pyIsInt v then some ({ o with id := some (JVal.jstr (supply k)) }, k + 1)
    else some (o, k)

/-- change_obj_id over a list, threading the uuid counter. -/
def change_objs_ids (supply : Nat → String) :
    Nat → List MObj → Option (List MObj × Nat)
  | k, [] => some ([], k)
  | k, o :: rest =>
    match change_obj_id supply k o with
    | none => none
    | some (o2, k2) =>
      match change_objs_ids supply k2 rest with
      | none => none
      | some (rest2, k3) => some (o2 :: rest2, k3)

/-- Embedded from change_ids, one category: an integer or missing id
is replaced by a fresh short uuid. -/
def change_cat_id (supply : Nat → String) (k : Nat) (o : MObj) : MObj × Nat :=
  match o.id with
  | none => ({ o with id := some (JVal.jstr (supply k)) }, k + 1)
  | some v =>
    if pyIsInt v then ({ o with id := some (JVal.jstr (supply k)) }, k + 1)
    else (o, k)

/-- change_cat_id over a list, threading the uuid counter. -/
def change_cats_ids (supply : Nat → String) :
    Nat → List MObj → List MObj × Nat
  | k, [] => ([], k)
  | k, o :: rest =>
    let p := change_cat_id supply k o
    let q := change_cats_ids supply p.2 rest
    (p.1 :: q.1, q.2)

/-- Embedded from change_ids: events, then cases, then the categories
list when the document has one. -/
def change_ids (supply : Nat → String) (k : Nat) (doc : MDoc) :
    Option (MDoc × Nat) :=
  match change_objs_ids supply k doc.events with
  | none => none
  | some (evs, k2) =>
    match change_objs_ids supply k2 doc.cases with
    | none => none
    | some (cs, k3) =>
      match doc.categories with
      | none => some (⟨evs, cs, none⟩, k3)
      | some cats =>
        let p := change_cats_ids supply k3 cats
        some (⟨evs, cs, some p.1⟩, p.2)

/-- Embedded from add_categories, one event or case: a missing
categories key becomes an empty list. -/
def add_obj_categories (o : MObj) : MObj :=
  match o.categories with
  | none => { o with categories := some (JVal.jarr []) }
  | some _ => o

/-- Embedded from add_categories: events, cases and the document
itself receive a categories key when missing. -/
def add_categories (doc : MDoc) : MDoc :=
  { events := doc.events.map add_obj_categories,
    cases := doc.cases.map add_obj_categories,
    categories :=
      match doc.categories with
      | none => some []
      | some cats => some cats }

/-- The object has a string-valued id. -/
def strId (o : MObj) : Bool :=
  match o.id with
  | some v => pyIsStr v
  | none => false

/-- The object has an integer- or string-valued id. -/
def intOrStrId (o : MObj) : Bool :=
  match o.id with
  | some v => pyIsInt v || pyIsStr v
  | none => false

/-- A category object with an integer, string or missing id. -/
def catOkId (o : MObj) : Bool :=
  match o.id with
  | some v => pyIsInt v || pyIsStr v
  | none => true

/-- The object has a categories key. -/
def hasCats (o : MObj) : Bool :=
  o.categories.isSome

/-- A string id is some string value. -/
theorem strId_eq (o : MObj) (h : strId o = true) :
    ∃ s, o.id = some (JVal.jstr s) := by
  cases hido : o.id with
  | none => simp [strId, hido] at h
  | some v =>
    cases v with
    | jstr s => exact ⟨s, rfl⟩
    | jnull => simp [strId, pyIsStr, hido] at h
    | jbool b => simp [strId, pyIsStr, hido] at h
    | jint n => simp [strId, pyIsStr, hido] at h
    | jarr l => simp [strId, pyIsStr, hido] at h
    | jobj f => simp [strId, pyIsStr, hido] at h

/-- change_objs_ids succeeds on int-or-string ids and leaves every id
a string. -/
theorem change_objs_ids_all_str (supply : Nat → String) (l : List MObj) :
    ∀ k, l.all intOrStrId = true →
    ∃ l2 k2, change_objs_ids supply k l = some (l2, k2) ∧ l2.all strId = true := by
  induction l with
  | nil => intro k _; exact ⟨[], k, rfl, rfl⟩
  | cons o rest ih =>
    intro k h
    rw [List.all_cons, Bool.and_eq_true] at h
    obtain ⟨h1, h2⟩ := h
    cases hido : o.id with
    | none => simp [intOrStrId, hido] at h1
    | some v =>
      by_cases hint : pyIsInt v = true
      · obtain ⟨l2, k2, heq, hall⟩ := ih (k + 1) h2
        refine ⟨{ o with id := some (JVal.jstr (supply k)) } :: l2, k2, ?_, ?_⟩
        · simp [change_objs_ids, change_obj_id, hido, hint, heq]
        · simp [List.all_cons, strId, pyIsStr, hall]
      · have hstr : pyIsStr v = true := by
          have hor : pyIsInt v = true ∨ pyIsStr v = true := by
            have h1a : (pyIsInt v || pyIsStr v) = true := by
              simpa [intOrStrId, hido] using h1
            simpa using h1a
          rcases hor with h | h
          · exact absurd h hint
          · exact h
        obtain ⟨l2, k2, heq, hall⟩ := ih k h2
        refine ⟨o :: l2, k2, ?_, ?_⟩
        · simp [change_objs_ids, change_obj_id, hido, hint, heq]
        · simp [List.all_cons, strId, hido, hstr, hall]

/-- change_objs_ids leaves a list of string-id objects untouched. -/
theorem change_objs_ids_fixed (supply : Nat → String) (l : List MObj) :
    ∀ k, l.all strId = true → change_objs_ids supply k l = some (l, k) := by
  induction l with
  | nil => intro k _; rfl
  | cons o rest ih =>
    intro k h
    rw [List.all_cons, Bool.and_eq_true] at h
    obtain ⟨h1, h2⟩ := h
    obtain ⟨s, hids⟩ := strId_eq o h1
    simp [change_objs_ids, change_obj_id, hids, pyIsInt, ih k h2]

/-- change_cats_ids leaves every category id a string when the input
ids are integers, strings or missing. -/
theorem change_cats_ids_all_str (supply : Nat → String) (l : List MObj) :
    ∀ k, l.all catOkId = true →
    (change_cats_ids supply k l).1.all strId = true := by
  induction l with
  | nil => intro k _; rfl
  | cons o rest ih =>
    intro k h
    rw [List.all_cons, Bool.and_eq_true] at h
    obtain ⟨h1, h2⟩ := h
    cases hido : o.id with
    | none =>
      have hrest := ih (k + 1) h2
      simp [change_cats_ids, change_cat_id, hido, List.all_cons, strId,
        pyIsStr, hrest]
    | some v =>
      by_cases hint : pyIsInt v = true
      · have hrest := ih (k + 1) h2
        simp [change_cats_ids, change_cat_id, hido, hint, List.all_cons,
          strId, pyIsStr, hrest]
      · have hstr : pyIsStr v = true := by
          have hor : pyIsInt v = true ∨ pyIsStr v = true := by
            have h1a : (pyIsInt v || pyIsStr v) = true := by
              simpa [catOkId, hido] using h1
            simpa using h1a
          rcases hor with h | h
          · exact absurd h hint
          · exact h
        have hrest := ih k h2
        simp [change_cats_ids, change_cat_id, hido, hint, List.all_cons,
          strId, hstr, hrest]

/-- change_cats_ids leaves a list of string-id categories untouched. -/
theorem change_cats_ids_fixed (supply : Nat → String) (l : List MObj) :
    ∀ k, l.all strId = true → change_cats_ids supply k l = (l, k) := by
  induction l with
  | nil => intro k _; rfl
  | cons o rest ih =>
    intro k h
    rw [List.all_cons, Bool.and_eq_true] at h
    obtain ⟨h1, h2⟩ := h
    obtain ⟨s, hids⟩ := strId_eq o h1
    simp [change_cats_ids, change_cat_id, hids, pyIsInt, ih k h2]

/-- add_obj_categories never changes the id. -/
theorem add_obj_categories_id (o : MObj) :
    (add_obj_categories o).id = o.id := by
  unfold add_obj_categories
  cases o.categories <;> rfl

/-- add_obj_categories preserves string ids. -/
theorem strId_add_obj (o : MObj) :
    strId (add_obj_categories o) = strId o := by
  unfold strId
  rw [add_obj_categories_id]

/-- add_obj_categories always leaves a categories key. -/
theorem add_obj_categories_some (o : MObj) :
    (add_obj_categories o).categories.isSome = true := by
  unfold add_obj_categories
  cases hc : o.categories with
  | none => simp
  | some v => simp [hc]

/-- add_obj_categories does nothing when categories is present. -/
theorem add_obj_categories_fixed (o : MObj) (h : o.categories.isSome = true) :
    add_obj_categories o = o := by
  unfold add_obj_categories
  cases hc : o.categories with
  | none => rw [hc] at h; simp at h
  | some v => rfl

/-- Mapping add_obj_categories preserves all-string ids. -/
theorem all_strId_map_add (l : List MObj) :
    (l.map add_obj_categories).all strId = l.all strId := by
  induction l with
  | nil => rfl
  | cons o rest ih => rw [List.map_cons, List.all_cons, List.all_cons, strId_add_obj, ih]

/-- Mapping add_obj_categories gives every object a categories key. -/
theorem all_hasCats_map_add (l : List MObj) :
    (l.map add_obj_categories).all hasCats = true := by
  induction l with
  | nil => rfl
  | cons o rest ih =>
    rw [List.map_cons, List.all_cons, ih]
    have h : hasCats (add_obj_categories o) = true := by
      unfold hasCats
      exact add_obj_categories_some o
    rw [h]
    rfl

/-- Mapping add_obj_categories does nothing when every object already
has a categories key. -/
theorem map_add_obj_fixed (l : List MObj) (h : l.all hasCats = true) :
    l.map add_obj_categories = l := by
  induction l with
  | nil => rfl
  | cons o rest ih =>
    rw [List.all_cons, Bool.and_eq_true] at h
    obtain ⟨h1, h2⟩ := h
    have h1a : o.categories.isSome = true := by
      simpa [hasCats] using h1
    rw [List.map_cons, add_obj_categories_fixed o h1a, ih h2]

/-- Claim C10, as stated, fails for ids of other JSON types: on a
timeline whose single event has a null id, change_ids succeeds and
leaves the null id in place, so after both migration functions the
event id is still not a string. -/
theorem C10_counterexample :
    (change_ids (fun _ => "u") 0 ⟨[⟨some JVal.jnull, none⟩], [], none⟩).map
      (fun p => (add_categories p.1).events.all strId) = some false := rfl

/-- Claim C10 (amended): on a stored timeline whose event and case ids
are integers or strings and whose category ids, when present, are
integers, strings or missing, a completed run of change_ids followed
by add_categories leaves every event, case and category with a string
id, gives every event, case and the document a categories key, and a
second application of either function changes nothing: ids that are
already strings are never reassigned. -/
theorem C10_migration_normalizes (supply : Nat → String) (k : Nat)
    (doc doc2 : MDoc) (k2 : Nat)
    (hev : doc.events.all intOrStrId = true)
    (hcs : doc.cases.all intOrStrId = true)
    (hcat : ∀ cats, doc.categories = some cats → cats.all catOkId = true)
    (hrun : change_ids supply k doc = some (doc2, k2)) :
    (add_categories doc2).events.all strId = true ∧
    (add_categories doc2).cases.all strId = true ∧
    (∀ cats2, (add_categories doc2).categories = some cats2 →
      cats2.all strId = true) ∧
    (add_categories doc2).events.all hasCats = true ∧
    (add_categories doc2).cases.all hasCats = true ∧
    (add_categories doc2).categories.isSome = true ∧
    (∀ supply2 j, change_ids supply2 j (add_categories doc2)
        = some (add_categories doc2, j)) ∧
    add_categories (add_categories doc2) = add_categories doc2 := by
  obtain ⟨evs, ke, heqe, halle⟩ := change_objs_ids_all_str supply doc.events k hev
  obtain ⟨cs, kc, heqc, hallc⟩ := change_objs_ids_all_str supply doc.cases ke hcs
  have hdoc2 : doc2.events = evs ∧ doc2.cases = cs ∧
      (doc2.categories = none ∧ doc.categories = none ∨
       ∃ cats0, doc.categories = some cats0 ∧
         doc2.categories = some (change_cats_ids supply kc cats0).1) := by
    cases hcats : doc.categories with
    | none =>
      have hsome : some ((⟨evs, cs, none⟩ : MDoc), kc) = some (doc2, k2) := by
        rw [← hrun]
        simp [change_ids, heqe, heqc, hcats]
      have hfst : (⟨evs, cs, none⟩ : MDoc) = doc2 :=
        congrArg Prod.fst (Option.some.inj hsome)
      refine ⟨?_, ?_, Or.inl ⟨?_, rfl⟩⟩ <;> rw [← hfst]
    | some cats0 =>
      have hsome : some ((⟨evs, cs, some (change_cats_ids supply kc cats0).1⟩ : MDoc),
          (change_cats_ids supply kc cats0).2) = some (doc2, k2) := by
        rw [← hrun]
        simp [change_ids, heqe, heqc, hcats]
      have hfst : (⟨evs, cs, some (change_cats_ids supply kc cats0).1⟩ : MDoc) = doc2 :=
        congrArg Prod.fst (Option.some.inj hsome)
      refine ⟨?_, ?_, Or.inr ⟨cats0, rfl, ?_⟩⟩ <;> rw [← hfst]
  obtain ⟨hde, hdc, hdcat⟩ := hdoc2
  have hAe : (add_categories doc2).events.all strId = true := by
    show (doc2.events.map add_obj_categories).all strId = true
    rw [all_strId_map_add, hde]
    exact halle
  have hAc : (add_categories doc2).cases.all strId = true := by
    show (doc2.cases.map add_obj_categories).all strId = true
    rw [all_strId_map_add, hdc]
    exact hallc
  have hAcat : ∃ D, (add_categories doc2).categories = some D ∧
      D.all strId = true := by
    rcases hdcat with ⟨h2none, _⟩ | ⟨cats0, hdsome, h2some⟩
    · exact ⟨[], by simp [add_categories, h2none], rfl⟩
    · refine ⟨(change_cats_ids supply kc cats0).1, by simp [add_categories, h2some], ?_⟩
      exact change_cats_ids_all_str supply cats0 kc (hcat cats0 hdsome)
  obtain ⟨D, hD, hDall⟩ := hAcat
  have hAevc : (add_categories doc2).events.all hasCats = true :=
    all_hasCats_map_add doc2.events
  have hAcsc : (add_categories doc2).cases.all hasCats = true :=
    all_hasCats_map_add doc2.cases
  have hAsome : (add_categories doc2).categories.isSome = true := by
    rw [hD]
    rfl
  have hsecond : ∀ supply2 j, change_ids supply2 j (add_categories doc2)
      = some (add_categories doc2, j) := by
    intro supply2 j
    have he := change_objs_ids_fixed supply2 (add_categories doc2).events j hAe
    have hc2 := change_objs_ids_fixed supply2 (add_categories doc2).cases j hAc
    have hcfix := change_cats_ids_fixed supply2 D j hDall
    simp only [change_ids, he, hc2, hD, hcfix]
    rw [← hD]
  have hidem : add_categories (add_categories doc2) = add_categories doc2 := by
    show (⟨(add_categories doc2).events.map add_obj_categories,
          (add_categories doc2).cases.map add_obj_categories,
          match (add_categories doc2).categories with
          | none => some []
          | some c => some c⟩ : MDoc) = add_categories doc2
    rw [map_add_obj_fixed _ hAevc, map_add_obj_fixed _ hAcsc, hD]
    show (⟨(add_categories doc2).events, (add_categories doc2).cases,
        some D⟩ : MDoc) = add_categories doc2
    rw [← hD]
  exact ⟨hAe, hAc, fun cats2 hc2 => by rw [hD] at hc2; cases hc2; exact hDall,
    hAevc, hAcsc, hAsome, hsecond, hidem⟩

/-- Witness for C10: a timeline with an integer event id, a string
case id and a category without an id is fully normalized by the two
migration functions, and a second application of either function with
a different uuid supply changes nothing. -/
theorem C10_witness :
    (add_categories ⟨[⟨some (JVal.jstr "u"), none⟩],
        [⟨some (JVal.jstr "a"), some (JVal.jarr [])⟩],
        some [⟨some (JVal.jstr "u"), none⟩]⟩).events.all strId = true ∧
    (add_categories ⟨[⟨some (JVal.jstr "u"), none⟩],
        [⟨some (JVal.jstr "a"), some (JVal.jarr [])⟩],
        some [⟨some (JVal.jstr "u"), none⟩]⟩).cases.all strId = true ∧
    (add_categories ⟨[⟨some (JVal.jstr "u"), none⟩],
        [⟨some (JVal.jstr "a"), some (JVal.jarr [])⟩],
        some [⟨some (JVal.jstr "u"), none⟩]⟩).categories.isSome = true ∧
    change_ids (fun _ => "v") 5 (add_categories ⟨[⟨some (JVal.jstr "u"), none⟩],
        [⟨some (JVal.jstr "a"), some (JVal.jarr [])⟩],
        some [⟨some (JVal.jstr "u"), none⟩]⟩)
      = some (add_categories ⟨[⟨some (JVal.jstr "u"), none⟩],
        [⟨some (JVal.jstr "a"), some (JVal.jarr [])⟩],
        some [⟨some (JVal.jstr "u"), none⟩]⟩, 5) ∧
    add_categories (add_categories ⟨[⟨some (JVal.jstr "u"), none⟩],
        [⟨some (JVal.jstr "a"), some (JVal.jarr [])⟩],
        some [⟨some (JVal.jstr "u"), none⟩]⟩)
      = add_categories ⟨[⟨some (JVal.jstr "u"), none⟩],
        [⟨some (JVal.jstr "a"), some (JVal.jarr [])⟩],
        some [⟨some (JVal.jstr "u"), none⟩]⟩ :=
  ⟨(C10_migration_normalizes (fun _ => "u") 0
      ⟨[⟨some (JVal.jint 1), none⟩], [⟨some (JVal.jstr "a"), some (JVal.jarr [])⟩],
        some [⟨none, none⟩]⟩
      ⟨[⟨some (JVal.jstr "u"), none⟩], [⟨some (JVal.jstr "a"), some (JVal.jarr [])⟩],
        some [⟨some (JVal.jstr "u"), none⟩]⟩ 2
      rfl rfl (by intro cats hc; cases hc; rfl) rfl).1,
   (C10_migration_normalizes (fun _ => "u") 0
      ⟨[⟨some (JVal.jint 1), none⟩], [⟨some (JVal.jstr "a"), some (JVal.jarr [])⟩],
        some [⟨none, none⟩]⟩
      ⟨[⟨some (JVal.jstr "u"), none⟩], [⟨some (JVal.jstr "a"), some (JVal.jarr [])⟩],
        some [⟨some (JVal.jstr "u"), none⟩]⟩ 2
      rfl rfl (by intro cats hc; cases hc; rfl) rfl).2.1,
   (C10_migration_normalizes (fun _ => "u") 0
      ⟨[⟨some (JVal.jint 1), none⟩], [⟨some (JVal.jstr "a"), some (JVal.jarr [])⟩],
        some [⟨none, none⟩]⟩
      ⟨[⟨some (JVal.jstr "u"), none⟩], [⟨some (JVal.jstr "a"), some (JVal.jarr [])⟩],
        some [⟨some (JVal.jstr "u"), none⟩]⟩ 2
      rfl rfl (by intro cats hc; cases hc; rfl) rfl).2.2.2.2.2.1,
   (C10_migration_normalizes (fun _ => "u") 0
      ⟨[⟨some (JVal.jint 1), none⟩], [⟨some (JVal.jstr "a"), some (JVal.jarr [])⟩],
        some [⟨none, none⟩]⟩
      ⟨[⟨some (JVal.jstr "u"), none⟩], [⟨some (JVal.jstr "a"), some (JVal.jarr [])⟩],
        some [⟨some (JVal.jstr "u"), none⟩]⟩ 2
      rfl rfl (by intro cats hc; cases hc; rfl) rfl).2.2.2.2.2.2.1 (fun _ => "v") 5,
   (C10_migration_normalizes (fun _ => "u") 0
      ⟨[⟨some (JVal.jint 1), none⟩], [⟨some (JVal.jstr "a"), some (JVal.jarr [])⟩],
        some [⟨none, none⟩]⟩
      ⟨[⟨some (JVal.jstr "u"), none⟩], [⟨some (JVal.jstr "a"), some (JVal.jarr [])⟩],
        some [⟨some (JVal.jstr "u"), none⟩]⟩ 2
      rfl rfl (by intro cats hc; cases hc; rfl) rfl).2.2.2.2.2.2.2⟩

end Capstone
